import Mathlib

/-!
Verification of the blob-access and session-lifecycle mediation layer of the
pooled agent service (src/pooled/app/src), against its natural-language
specification.  Python code is shallowly embedded: each service method becomes
a total Lean function from its inputs and an explicit "remote environment"
(what the credential source and the remote HTTP service would answer) to a
result; Python exceptions become an inductive type and every `try/except`
chain becomes an explicit, ordered error-dispatch function.
-/

namespace PooledApp

/-- Python exception classes that can arise in the mediation layer.
Raw transport/SDK classes (httpx.HTTPStatusError, httpx.RequestError,
azure ResourceNotFoundError, azure AzureError, fastapi HTTPException) and the
repository's own domain classes (BlobStorageError and its subclass
BlobNotFoundError from blob_storage_service.py; SasTokenError from
sas_token_service.py; DynamicSessionsError and its subclasses
SessionNotFoundError and CodeExecutionError from dynamic_sessions_service.py).
`otherError` stands for an arbitrary further Exception. -/
inductive PyExc where
  | httpStatusError (status : Nat) : PyExc
  | httpRequestError : PyExc
  | resourceNotFoundError : PyExc
  | azureError (msg : String) : PyExc
  | httpException (status : Nat) (detail : String) : PyExc
  | blobNotFoundError (msg : String) : PyExc
  | blobStorageError (msg : String) : PyExc
  | sasTokenError (msg : String) : PyExc
  | dynamicSessionsError (msg : String) : PyExc
  | sessionNotFoundError (msg : String) : PyExc
  | codeExecutionError (msg : String) : PyExc
  | otherError (msg : String) : PyExc
deriving DecidableEq

/-- Python str(e): the message carried by the exception (approximated for the
raw SDK classes, exact for the repository's own classes, whose constructors
are always called with a message string in the source). -/
def PyExc.message : PyExc → String
  | .httpStatusError s => "status " ++ toString s
  | .httpRequestError => "request error"
  | .resourceNotFoundError => "resource not found"
  | .azureError m => m
  | .httpException _ d => d
  | .blobNotFoundError m => m
  | .blobStorageError m => m
  | .sasTokenError m => m
  | .dynamicSessionsError m => m
  | .sessionNotFoundError m => m
  | .codeExecutionError m => m
  | .otherError m => m

/-- The repository's own domain exception classes, as opposed to raw
transport/SDK exception classes.  These are the code's realization of the
spec's closed set of domain error kinds. -/
def PyExc.isDomain : PyExc → Bool
  | .blobNotFoundError _ => true
  | .blobStorageError _ => true
  | .sasTokenError _ => true
  | .dynamicSessionsError _ => true
  | .sessionNotFoundError _ => true
  | .codeExecutionError _ => true
  | _ => false

/-- Result of a Python call: a value or a raised exception. -/
inductive PyResult (α : Type) where
  | ok (v : α) : PyResult α
  | error (e : PyExc) : PyResult α
deriving DecidableEq

/-- A Python `try` body followed by an `except` chain: the handler receives
the raised exception and either returns a value or raises (possibly another)
exception.  Handlers below are written as ordered matches mirroring the
source's ordered `except` clauses. -/
def tryExcept {α : Type} (body : PyResult α) (handler : PyExc → PyResult α) :
    PyResult α :=
  match body with
  | .ok v => .ok v
  | .error e => handler e

/-- What the remote HTTP service answers to one outbound call: a response
with a status code and a body, or a transport-level failure (connection
refused / timeout, httpx.RequestError). -/
inductive HttpOutcome where
  | response (status : Nat) (body : String) : HttpOutcome
  | transportError : HttpOutcome
deriving DecidableEq

/- ## Credential strategy selection
From AzureBlobStorageService._create_blob_service_client
(blob_storage_service.py lines 80 to 103). -/

/-- The authentication strategy the blob service client is constructed
with. -/
inductive AuthMethod where
  | connectionString : AuthMethod
  | accountKey : AuthMethod
  | defaultCredential : AuthMethod
deriving DecidableEq

/-- Body of _create_blob_service_client (lines 87 to 100): Python truthiness
of the three configuration strings selects the strategy; the final branch
raises BlobStorageError.  The second component counts outbound network calls
made during selection: every branch only constructs a local SDK client object
(BlobServiceClient construction performs no I/O), so it is zero. -/
def createBlobServiceClientInner (account_name account_key connection_string : String) :
    PyResult AuthMethod × Nat :=
  if connection_string ≠ "" then
    (.ok .connectionString, 0)
  else if account_name ≠ "" ∧ account_key ≠ "" then
    (.ok .accountKey, 0)
  else if account_name ≠ "" then
    (.ok .defaultCredential, 0)
  else
    (.error (.blobStorageError "No valid authentication method provided for Azure Blob Storage"), 0)

/-- The function _create_blob_service_client with its surrounding try/except (lines
101 to 103): any raised exception is re-raised as BlobStorageError with an
initialization message. -/
def createBlobServiceClient (account_name account_key connection_string : String) :
    PyResult AuthMethod × Nat :=
  match createBlobServiceClientInner account_name account_key connection_string with
  | (.ok m, n) => (.ok m, n)
  | (.error e, n) =>
      (.error (.blobStorageError ("Failed to initialize blob storage client: " ++ e.message)), n)

/- ## Blob access service
From AzureBlobStorageService (blob_storage_service.py).  The service is
constructed with account_name, account_key, connection_string and a default
container (__init__, lines 57 to 78); a SAS token service is created exactly
when both account_name and account_key are non-empty (lines 72 to 78).  Each
read operation branches on whether that SAS service exists. -/

/-- Environment of one blob read call: the configuration the service was
constructed with, whether the local SAS-token signing succeeds (it is a pure
local computation; failure raises SasTokenError), and what the storage
backend answers for the requested blob. -/
structure BlobEnv where
  accountName : String
  accountKey : String
  mintOk : Bool
  remote : HttpOutcome
deriving DecidableEq

/-- From __init__ lines 72 to 78: the SAS service exists iff both account name and
account key are non-empty (Python truthiness of the two strings). -/
def BlobEnv.sasConfigured (env : BlobEnv) : Bool :=
  decide (env.accountName ≠ "") && decide (env.accountKey ≠ "")

/-- How a read operation fetches the object. -/
inductive AccessPath where
  | sasUrl : AccessPath
  | directCredential : AccessPath
deriving DecidableEq

/-- The dispatch at the top of get_blob / get_blob_stream /
get_blob_metadata / blob_exists (the `if self._sas_service:` branch): when a
SAS service exists the operation mints a SAS token and fetches via the SAS
URL, otherwise it falls back to the directly authenticated blob client. -/
def BlobEnv.accessPath (env : BlobEnv) : AccessPath :=
  if env.sasConfigured then .sasUrl else .directCredential

/-- Message of BlobNotFoundError as raised throughout the service. -/
def blobNotFoundMsg (blob_name container : String) : String :=
  "Blob '" ++ blob_name ++ "' not found in container '" ++ container ++ "'"

/-- Body of get_blob (lines 109 to 133).  SAS path: mint a SAS URL (a local
signing step, SasTokenError on failure), then an httpx GET followed by
raise_for_status, which raises httpx.HTTPStatusError for any status of 400 or
above.  Direct path: blob_client.download_blob, which raises the SDK's
ResourceNotFoundError on 404 and an AzureError on any other failure
(transport failures are wrapped by the SDK as AzureError as well). -/
def getBlobInner (blob_name container : String) (env : BlobEnv) : PyResult String :=
  match env.accessPath with
  | .sasUrl =>
    if env.mintOk then
      match env.remote with
      | .transportError => .error .httpRequestError
      | .response s body => if 400 ≤ s then .error (.httpStatusError s) else .ok body
    else
      .error (.sasTokenError ("Failed to generate SAS token for blob '" ++ blob_name ++ "'"))
  | .directCredential =>
    match env.remote with
    | .transportError => .error (.azureError "connection failure")
    | .response s body =>
      if s = 404 then .error .resourceNotFoundError
      else if 400 ≤ s then .error (.azureError ("operation returned status " ++ toString s))
      else .ok body

/-- The ordered except chain of get_blob (lines 135 to 150):
httpx.HTTPStatusError with status 404 becomes BlobNotFoundError, other
statuses BlobStorageError; ResourceNotFoundError becomes BlobNotFoundError;
AzureError or SasTokenError becomes BlobStorageError; any other exception
becomes BlobStorageError with an unexpected-error message. -/
def getBlobHandler (blob_name container : String) (e : PyExc) : PyResult String :=
  match e with
  | .httpStatusError s =>
    if s = 404 then .error (.blobNotFoundError (blobNotFoundMsg blob_name container))
    else .error (.blobStorageError ("Failed to retrieve blob '" ++ blob_name ++ "': " ++ e.message))
  | .resourceNotFoundError => .error (.blobNotFoundError (blobNotFoundMsg blob_name container))
  | .azureError m => .error (.blobStorageError ("Failed to retrieve blob '" ++ blob_name ++ "': " ++ m))
  | .sasTokenError m => .error (.blobStorageError ("Failed to retrieve blob '" ++ blob_name ++ "': " ++ m))
  | e => .error (.blobStorageError ("Unexpected error retrieving blob '" ++ blob_name ++ "': " ++ e.message))

/-- get_blob (lines 105 to 150). -/
def getBlob (blob_name container : String) (env : BlobEnv) : PyResult String :=
  tryExcept (getBlobInner blob_name container env) (getBlobHandler blob_name container)

/- ### Byte streams
get_blob_stream wraps the downloaded content in io.BytesIO (lines 167 and
171): an in-memory buffer with a read position, supporting seek. -/

/-- State of an io.BytesIO object: the full buffered content and the current
read position. -/
structure ByteStreamState where
  buf : String
  pos : Nat
deriving DecidableEq

/-- BytesIO construction: the whole content is materialized in the buffer,
position zero. -/
def byteStreamOf (content : String) : ByteStreamState := ⟨content, 0⟩

/-- stream.read(): returns everything from the current position to the end
and moves the position to the end. -/
def ByteStreamState.readAll (s : ByteStreamState) : String × ByteStreamState :=
  (⟨s.buf.data.drop s.pos⟩, ⟨s.buf, s.buf.length⟩)

/-- stream.seek(p): moves the read position. -/
def ByteStreamState.seek (s : ByteStreamState) (p : Nat) : ByteStreamState :=
  ⟨s.buf, p⟩

/-- Body of get_blob_stream (lines 156 to 171).  SAS path: mint a SAS URL,
httpx GET, raise_for_status, then BytesIO(response.content).  Direct path:
`content = await self.get_blob(...)` (the full get_blob including its own
error mapping) then BytesIO(content). -/
def getBlobStreamInner (blob_name container : String) (env : BlobEnv) :
    PyResult ByteStreamState :=
  match env.accessPath with
  | .sasUrl =>
    if env.mintOk then
      match env.remote with
      | .transportError => .error .httpRequestError
      | .response s body =>
        if 400 ≤ s then .error (.httpStatusError s) else .ok (byteStreamOf body)
    else
      .error (.sasTokenError ("Failed to generate SAS token for blob '" ++ blob_name ++ "'"))
  | .directCredential =>
    match getBlob blob_name container env with
    | .ok content => .ok (byteStreamOf content)
    | .error e => .error e

/-- The ordered except chain of get_blob_stream (lines 173 to 184):
httpx.HTTPStatusError 404 becomes BlobNotFoundError, other statuses
BlobStorageError; SasTokenError, BlobStorageError and BlobNotFoundError are
re-raised unchanged; any other exception becomes BlobStorageError. -/
def getBlobStreamHandler (blob_name container : String) (e : PyExc) :
    PyResult ByteStreamState :=
  match e with
  | .httpStatusError s =>
    if s = 404 then .error (.blobNotFoundError (blobNotFoundMsg blob_name container))
    else .error (.blobStorageError ("Failed to stream blob '" ++ blob_name ++ "': " ++ e.message))
  | .sasTokenError m => .error (.sasTokenError m)
  | .blobStorageError m => .error (.blobStorageError m)
  | .blobNotFoundError m => .error (.blobNotFoundError m)
  | e => .error (.blobStorageError ("Unexpected error streaming blob '" ++ blob_name ++ "': " ++ e.message))

/-- get_blob_stream (lines 152 to 184). -/
def getBlobStream (blob_name container : String) (env : BlobEnv) :
    PyResult ByteStreamState :=
  tryExcept (getBlobStreamInner blob_name container env) (getBlobStreamHandler blob_name container)

/- ### Metadata and existence -/

/-- Blob metadata as assembled by get_blob_metadata.  Header extraction and
the SDK properties object are abstracted: the fields carried here are the
ones derived from the call's inputs and the response; no claim depends on the
remaining header fields. -/
structure BlobMetadata where
  name : String
  container : String
  size : Nat
deriving DecidableEq

/-- Body of get_blob_metadata (lines 190 to 232).  SAS path: mint a SAS URL,
httpx HEAD, raise_for_status, then build the metadata dictionary from the
response headers.  Direct path: blob_client.get_blob_properties, raising
ResourceNotFoundError on 404 and AzureError otherwise. -/
def getBlobMetadataInner (blob_name container : String) (env : BlobEnv) :
    PyResult BlobMetadata :=
  match env.accessPath with
  | .sasUrl =>
    if env.mintOk then
      match env.remote with
      | .transportError => .error .httpRequestError
      | .response s body =>
        if 400 ≤ s then .error (.httpStatusError s)
        else .ok ⟨blob_name, container, body.length⟩
    else
      .error (.sasTokenError ("Failed to generate SAS token for blob '" ++ blob_name ++ "'"))
  | .directCredential =>
    match env.remote with
    | .transportError => .error (.azureError "connection failure")
    | .response s body =>
      if s = 404 then .error .resourceNotFoundError
      else if 400 ≤ s then .error (.azureError ("operation returned status " ++ toString s))
      else .ok ⟨blob_name, container, body.length⟩

/-- The ordered except chain of get_blob_metadata (lines 237 to 252; the
duplicated clauses at lines 254 to 262 are unreachable): same shape as
get_blob's chain. -/
def getBlobMetadataHandler (blob_name container : String) (e : PyExc) :
    PyResult BlobMetadata :=
  match e with
  | .httpStatusError s =>
    if s = 404 then .error (.blobNotFoundError (blobNotFoundMsg blob_name container))
    else .error (.blobStorageError ("Failed to retrieve metadata for blob '" ++ blob_name ++ "': " ++ e.message))
  | .resourceNotFoundError => .error (.blobNotFoundError (blobNotFoundMsg blob_name container))
  | .azureError m => .error (.blobStorageError ("Failed to retrieve metadata for blob '" ++ blob_name ++ "': " ++ m))
  | .sasTokenError m => .error (.blobStorageError ("Failed to retrieve metadata for blob '" ++ blob_name ++ "': " ++ m))
  | e => .error (.blobStorageError ("Unexpected error retrieving metadata for blob '" ++ blob_name ++ "': " ++ e.message))

/-- get_blob_metadata (lines 186 to 252). -/
def getBlobMetadata (blob_name container : String) (env : BlobEnv) :
    PyResult BlobMetadata :=
  tryExcept (getBlobMetadataInner blob_name container env) (getBlobMetadataHandler blob_name container)

/-- Body of blob_exists (lines 268 to 287).  SAS path: mint a SAS URL, httpx
HEAD with NO raise_for_status, then `exists = response.status_code == 200` —
every response, whatever its status, yields a boolean.  Direct path:
blob_client.exists(), which returns False on 404, True on success, and raises
an AzureError on any other failure. -/
def blobExistsInner (blob_name container : String) (env : BlobEnv) : PyResult Bool :=
  match env.accessPath with
  | .sasUrl =>
    if env.mintOk then
      match env.remote with
      | .transportError => .error .httpRequestError
      | .response s _ => .ok (decide (s = 200))
    else
      .error (.sasTokenError ("Failed to generate SAS token for blob '" ++ blob_name ++ "'"))
  | .directCredential =>
    match env.remote with
    | .transportError => .error (.azureError "connection failure")
    | .response s _ =>
      if s = 404 then .ok false
      else if 400 ≤ s then .error (.azureError ("operation returned status " ++ toString s))
      else .ok true

/-- The ordered except chain of blob_exists (lines 289 to 301):
httpx.HTTPStatusError 404 returns False (not an error), other statuses become
BlobStorageError; AzureError or SasTokenError becomes BlobStorageError; any
other exception becomes BlobStorageError. -/
def blobExistsHandler (blob_name container : String) (e : PyExc) : PyResult Bool :=
  match e with
  | .httpStatusError s =>
    if s = 404 then .ok false
    else .error (.blobStorageError ("Failed to check existence of blob '" ++ blob_name ++ "': " ++ e.message))
  | .azureError m => .error (.blobStorageError ("Failed to check existence of blob '" ++ blob_name ++ "': " ++ m))
  | .sasTokenError m => .error (.blobStorageError ("Failed to check existence of blob '" ++ blob_name ++ "': " ++ m))
  | e => .error (.blobStorageError ("Unexpected error checking existence of blob '" ++ blob_name ++ "': " ++ e.message))

/-- blob_exists (lines 264 to 301). -/
def blobExists (blob_name container : String) (env : BlobEnv) : PyResult Bool :=
  tryExcept (blobExistsInner blob_name container env) (blobExistsHandler blob_name container)

/- ## Session lifecycle client
From AzureDynamicSessionsService (dynamic_sessions_service.py). -/

/-- Environment of one session operation: whether credential.get_token
succeeds (its failure is caught inside _get_access_token, lines 88 to 95, and
re-raised as DynamicSessionsError), and what the control plane answers to the
one outbound HTTP call. -/
structure SessionEnv where
  tokenOk : Bool
  remote : HttpOutcome
deriving DecidableEq

/-- Per-operation outbound activity: how many credential resolutions and how
many HTTP calls the operation performed. -/
structure OpTrace where
  credentialResolutions : Nat
  httpCalls : Nat
deriving DecidableEq

/-- Every session operation resolves the credential first and issues its one
HTTP call only if that succeeded. -/
def sessionTrace (env : SessionEnv) : OpTrace :=
  ⟨1, if env.tokenOk then 1 else 0⟩

/-- The except chain shared by all four session operations (execute_code
lines 157 to 165 and the identical chains of create_session,
get_session_status and delete_session): httpx.HTTPStatusError becomes
DynamicSessionsError, httpx.RequestError becomes DynamicSessionsError, and —
decisively — the final `except Exception` catches every other exception,
including the SessionNotFoundError and CodeExecutionError the operation
itself just raised inside the `try`, and re-raises it as a plain
DynamicSessionsError with an unexpected-error message. -/
def sessionHandler (e : PyExc) : PyExc :=
  match e with
  | .httpStatusError s => .dynamicSessionsError ("HTTP error: status " ++ toString s)
  | .httpRequestError => .dynamicSessionsError ("Request error: " ++ PyExc.message .httpRequestError)
  | e => .dynamicSessionsError ("Unexpected error: " ++ e.message)

/-- Body of execute_code (lines 113 to 155): resolve a token
(_get_access_token raises DynamicSessionsError on failure), POST to
base_url/code/execute, then: status 404 raises SessionNotFoundError, status
400 raises CodeExecutionError carrying response.text, any other status of
400 or above goes through raise_for_status (httpx.HTTPStatusError), success
returns the parsed body. -/
def executeCodeInner (session_id code : String) (env : SessionEnv) : PyResult String :=
  if env.tokenOk then
    match env.remote with
    | .transportError => .error .httpRequestError
    | .response s body =>
      if s = 404 then .error (.sessionNotFoundError ("Session " ++ session_id ++ " not found"))
      else if s = 400 then .error (.codeExecutionError ("Code execution failed: " ++ body))
      else if 400 ≤ s then .error (.httpStatusError s)
      else .ok body
  else
    .error (.dynamicSessionsError "Authentication failed: credential rejected")

/-- execute_code (lines 97 to 165), with its outbound-activity trace.  The
`code` payload is forwarded untouched; the service performs no validation on
it. -/
def executeCode (session_id code : String) (env : SessionEnv) :
    PyResult String × OpTrace :=
  (tryExcept (executeCodeInner session_id code env) (fun e => .error (sessionHandler e)),
   sessionTrace env)

/-- The query parameters create_session sends (lines 190 to 193): the
api-version and the pool identifier.  The identifier is the literal string
"testid1" — the caller-supplied pool_id is not used in the request. -/
def createSessionParams (pool_id : String) : String × String :=
  ("2025-02-02-preview", "testid1")

/-- Body of create_session (lines 181 to 212): resolve a token, POST to
pool_management_endpoint/session with the parameters of
createSessionParams, then raise_for_status on any status of 400 or above (no
special case for 404), success returns the parsed body. -/
def createSessionInner (pool_id : String) (env : SessionEnv) : PyResult String :=
  if env.tokenOk then
    match createSessionParams pool_id with
    | (_, _) =>
      match env.remote with
      | .transportError => .error .httpRequestError
      | .response s body =>
        if 400 ≤ s then .error (.httpStatusError s) else .ok body
  else
    .error (.dynamicSessionsError "Authentication failed: credential rejected")

/-- create_session (lines 167 to 222). -/
def createSession (pool_id : String) (env : SessionEnv) : PyResult String × OpTrace :=
  (tryExcept (createSessionInner pool_id env) (fun e => .error (sessionHandler e)),
   sessionTrace env)

/-- Body of get_session_status (lines 238 to 266): resolve a token, GET
base_url/sessions/session_id, status 404 raises SessionNotFoundError, then
raise_for_status, success returns the parsed body. -/
def getSessionStatusInner (session_id : String) (env : SessionEnv) : PyResult String :=
  if env.tokenOk then
    match env.remote with
    | .transportError => .error .httpRequestError
    | .response s body =>
      if s = 404 then .error (.sessionNotFoundError ("Session " ++ session_id ++ " not found"))
      else if 400 ≤ s then .error (.httpStatusError s)
      else .ok body
  else
    .error (.dynamicSessionsError "Authentication failed: credential rejected")

/-- get_session_status (lines 224 to 276). -/
def getSessionStatus (session_id : String) (env : SessionEnv) :
    PyResult String × OpTrace :=
  (tryExcept (getSessionStatusInner session_id env) (fun e => .error (sessionHandler e)),
   sessionTrace env)

/-- Body of delete_session (lines 289 to 315): same shape as
get_session_status with a DELETE call and no returned value. -/
def deleteSessionInner (session_id : String) (env : SessionEnv) : PyResult Unit :=
  if env.tokenOk then
    match env.remote with
    | .transportError => .error .httpRequestError
    | .response s _ =>
      if s = 404 then .error (.sessionNotFoundError ("Session " ++ session_id ++ " not found"))
      else if 400 ≤ s then .error (.httpStatusError s)
      else .ok ()
  else
    .error (.dynamicSessionsError "Authentication failed: credential rejected")

/-- delete_session (lines 278 to 325). -/
def deleteSession (session_id : String) (env : SessionEnv) :
    PyResult Unit × OpTrace :=
  (tryExcept (deleteSessionInner session_id env) (fun e => .error (sessionHandler e)),
   sessionTrace env)

/- ## Routing layer
From routers/blob_storage.py and routers/dynamic_sessions.py. -/

/-- Response payload of the SAS-token endpoint. -/
structure SasResponse where
  blobName : String
  container : String
  expiresInHours : Int
deriving DecidableEq

/-- Outcome of one call to the SAS-token endpoint: the surfaced result, how
many SAS tokens were minted (invocations of the local generate_blob_sas
signing computation), and how many outbound network calls were made.  SAS
generation is a purely local signing computation, so networkCalls is zero on
every path of this endpoint. -/
structure SasRouterOutcome where
  result : PyResult SasResponse
  tokensMinted : Nat
  networkCalls : Nat
deriving DecidableEq

/-- get_blob_sas_token (blob_storage.py lines 230 to 274).  Out-of-range
expires_in_hours: line 246 raises HTTPException(400, "expires_in_hours must
be between 1 and 24") inside the `try`, but the handler's own final
`except Exception` (line 272) catches that very exception and raises
HTTPException(500, "Internal server error") in its place — so the surfaced
response is the 500, with no token minted and no network call.  In-range:
generate_blob_read_sas is invoked at line 255 and again inside
get_blob_url_with_sas at line 256 (two mints); a SasTokenError from minting
is mapped at line 269 to HTTPException(500, "Failed to generate SAS token").
mintOk tells whether the local signing succeeds. -/
def getBlobSasToken (blob_name : String) (container : Option String)
    (expires_in_hours : Int) (default_container : String) (mintOk : Bool) :
    SasRouterOutcome :=
  if expires_in_hours < 1 ∨ 24 < expires_in_hours then
    ⟨.error (.httpException 500 "Internal server error"), 0, 0⟩
  else if mintOk then
    ⟨.ok ⟨blob_name, container.getD default_container, expires_in_hours⟩, 2, 0⟩
  else
    ⟨.error (.httpException 500 "Failed to generate SAS token"), 0, 0⟩

/-- The pydantic request model CodeExecutionRequest
(dynamic_sessions.py lines 22 to 24): `code` carries
min_length=1 and max_length=50000, checked by the framework before the
handler body runs. -/
def codeLengthValid (code : String) : Bool :=
  decide (1 ≤ code.length) && decide (code.length ≤ 50000)

/-- The except chain shared by the session endpoints (execute_code router
lines 116 to 127 and execute_code_simple lines 300 to 311):
SessionNotFoundError maps to HTTP 404, CodeExecutionError to HTTP 400 with
the error's message, DynamicSessionsError and anything else to HTTP 500. -/
def routeSessionError (e : PyExc) : PyExc :=
  match e with
  | .sessionNotFoundError m => .httpException 404 m
  | .codeExecutionError m => .httpException 400 m
  | .dynamicSessionsError _ => .httpException 500 "Internal server error"
  | _ => .httpException 500 "Internal server error"

/-- POST /sessions/session_id/execute (lines 76 to 127): the typed entry
point.  The framework validates the CodeExecutionRequest model first; an
invalid `code` length is rejected with a 422 validation response before the
handler body, hence before any credential resolution or HTTP call.  A valid
request reaches the service's execute_code. -/
def executeEndpoint (session_id code : String) (env : SessionEnv) :
    PyResult String × OpTrace :=
  if codeLengthValid code then
    match executeCode session_id code env with
    | (.ok v, t) => (.ok v, t)
    | (.error e, t) => (.error (routeSessionError e), t)
  else
    (.error (.httpException 422 "request validation failed"), ⟨0, 0⟩)

/-- POST /sessions/session_id/execute/simple (lines 262 to 311): the
simplified entry point.  `code` is taken as a bare body string with no length
constraint, and the handler forwards it straight to the service's
execute_code — there is no validation on this path. -/
def executeSimpleEndpoint (session_id code : String) (env : SessionEnv) :
    PyResult String × OpTrace :=
  match executeCode session_id code env with
  | (.ok v, t) => (.ok v, t)
  | (.error e, t) => (.error (routeSessionError e), t)

/- ## Dependency providers and settings
From core/config.py and the two routers' provider functions. -/

/-- The fields the Settings class declares (config.py lines 11 to 39).
pydantic BaseSettings exposes exactly the declared fields as attributes;
reading any other attribute raises AttributeError. -/
def settingsFields : List String :=
  ["app_name", "app_version", "description", "host", "port", "debug",
   "cors_origins", "log_level", "azure_storage_account_name",
   "azure_storage_account_key", "azure_storage_connection_string",
   "azure_storage_container_name"]

/-- The keyword parameters AzureBlobStorageService.__init__ accepts
(blob_storage_service.py lines 57 to 63). -/
def blobServiceInitParams : List String :=
  ["account_name", "account_key", "connection_string", "default_container"]

/-- The keyword arguments get_blob_storage_service passes to that
constructor (blob_storage.py lines 24 to 30). -/
def blobProviderKwargs : List String :=
  ["account_name", "account_key", "connection_string", "default_container",
   "client_id"]

/-- The settings attributes get_blob_storage_service reads directly (its
argument expressions, lines 25 to 29; Python evaluates all argument
expressions before the call). -/
def blobProviderSettingsReads : List String :=
  ["azure_storage_account_name", "azure_storage_account_key",
   "azure_storage_connection_string", "azure_storage_container_name",
   "azure_client_id"]

/-- The keyword parameters AzureDynamicSessionsService.__init__ accepts
(dynamic_sessions_service.py lines 60 to 65). -/
def sessionsServiceInitParams : List String :=
  ["base_url", "pool_management_endpoint", "client_id", "timeout"]

/-- The keyword arguments get_dynamic_sessions_service passes
(dynamic_sessions.py lines 58 to 62). -/
def sessionsProviderKwargs : List String :=
  ["base_url", "pool_management_endpoint", "client_id"]

/-- The settings attributes get_dynamic_sessions_service reads directly
(line 61; the two endpoint URLs are read through getattr with a default and
cannot raise). -/
def sessionsProviderSettingsReads : List String :=
  ["azure_client_id"]

/-- How a dependency provider can fail before the service exists. -/
inductive ProviderFailure where
  | attributeError (field : String) : ProviderFailure
  | typeError (kwarg : String) : ProviderFailure
deriving DecidableEq

/-- Result of running a dependency provider: a constructed service, or a
failure raised before the service exists. -/
inductive ProviderResult where
  | ok : ProviderResult
  | error (e : ProviderFailure) : ProviderResult
deriving DecidableEq

/-- Python evaluation of a provider body `Service(kw=settings.attr, ...)`:
first every settings attribute read is evaluated (AttributeError on the first
undeclared field), then the call is made (TypeError on the first unexpected
keyword argument). -/
def runProvider (settingsReads kwargs initParams : List String) :
    ProviderResult :=
  match settingsReads.find? (fun f => !(settingsFields.contains f)) with
  | some f => .error (.attributeError f)
  | none =>
    match kwargs.find? (fun kw => !(initParams.contains kw)) with
    | some kw => .error (.typeError kw)
    | none => .ok

/-- get_blob_storage_service (blob_storage.py lines 22 to 30). -/
def getBlobStorageServiceProvider : ProviderResult :=
  runProvider blobProviderSettingsReads blobProviderKwargs blobServiceInitParams

/-- get_dynamic_sessions_service (dynamic_sessions.py lines 50 to 62). -/
def getDynamicSessionsServiceProvider : ProviderResult :=
  runProvider sessionsProviderSettingsReads sessionsProviderKwargs sessionsServiceInitParams

/-- The endpoints that depend on get_blob_storage_service (blob_storage.py;
the SAS endpoint depends on get_sas_token_service instead and is not in this
list). -/
def blobServiceEndpoints : List String :=
  ["get_blob_content", "get_blob_stream", "get_blob_metadata", "check_blob_exists"]

/-- The endpoints that depend on get_dynamic_sessions_service
(dynamic_sessions.py). -/
def sessionServiceEndpoints : List String :=
  ["execute_code", "create_session", "get_session_status", "delete_session",
   "execute_code_simple"]

/-- The provider an endpoint's Depends clause runs before its handler. -/
def endpointProvider (endpoint : String) : ProviderResult :=
  if blobServiceEndpoints.contains endpoint then getBlobStorageServiceProvider
  else getDynamicSessionsServiceProvider

/- ## Helper lemmas -/

/-- If a try/except block surfaces an error, that error came out of the
handler. -/
theorem tryExcept_error {α : Type} (b : PyResult α) (h : PyExc → PyResult α)
    (e' : PyExc) (he : tryExcept b h = .error e') : ∃ e, h e = .error e' := by
  cases b with
  | ok v => simp [tryExcept] at he
  | error e => exact ⟨e, he⟩

/-- A Python result whose error, if any, is a domain exception. -/
def PyResult.errorsDomain {α : Type} : PyResult α → Bool
  | .ok _ => true
  | .error e => e.isDomain

/-- Unpacking errorsDomain at a concrete error. -/
theorem errorsDomain_error {α : Type} (r : PyResult α) (e : PyExc)
    (h1 : r.errorsDomain = true) (h2 : r = .error e) : e.isDomain = true := by
  subst h2
  simpa [PyResult.errorsDomain] using h1

/-- Every error leaving get_blob's except chain is a domain exception. -/
theorem getBlobHandler_domain (n c : String) (e : PyExc) :
    (getBlobHandler n c e).errorsDomain = true := by
  cases e <;> simp only [getBlobHandler] <;> (try split) <;> rfl

/-- Every error leaving get_blob_stream's except chain is a domain
exception. -/
theorem getBlobStreamHandler_domain (n c : String) (e : PyExc) :
    (getBlobStreamHandler n c e).errorsDomain = true := by
  cases e <;> simp only [getBlobStreamHandler] <;> (try split) <;> rfl

/-- Every error leaving get_blob_metadata's except chain is a domain
exception. -/
theorem getBlobMetadataHandler_domain (n c : String) (e : PyExc) :
    (getBlobMetadataHandler n c e).errorsDomain = true := by
  cases e <;> simp only [getBlobMetadataHandler] <;> (try split) <;> rfl

/-- Every result leaving blob_exists's except chain is a boolean or a domain
exception. -/
theorem blobExistsHandler_domain (n c : String) (e : PyExc) :
    (blobExistsHandler n c e).errorsDomain = true := by
  cases e <;> simp only [blobExistsHandler] <;> (try split) <;> rfl

/-- Everything leaving the session operations' shared except chain is a
domain exception. -/
theorem sessionHandler_domain (e : PyExc) : (sessionHandler e).isDomain = true := by
  cases e <;> simp [sessionHandler, PyExc.isDomain]

/- ## Claims -/

/-- C1, counterexample.  The claim says credential resolution attempts
identity-based strategies before the static account key and never attempts
the account key while an identity-based strategy is available.  In the code,
with account_name = "acct" and account_key = "key" and no connection string,
the client is built with the account key, even though the very same
account_name with no key would have enabled the ambient default-identity
strategy — so an identity strategy was available and the account key was
chosen ahead of it.  Also, there is no connection-string-last order: a
configured connection string wins over everything. -/
theorem credential_order_counterexample :
    (createBlobServiceClient "acct" "key" "").1 = .ok .accountKey ∧
    (createBlobServiceClient "acct" "" "").1 = .ok .defaultCredential ∧
    (createBlobServiceClient "acct" "key" "cs").1 = .ok .connectionString := by
  decide

/-- C1, amended.  Strategy selection tries, in order: connection string,
then static account key (requiring both account name and key), then ambient
default identity (account name alone), stopping at the first whose
configuration is present; the account key is therefore attempted before the
identity-based strategy whenever both are configured, and there is no
explicit-client-id strategy.  If nothing is configured, construction fails
with the blob-storage initialization error — the code's
authentication-failure signal — and no branch makes any network call. -/
theorem credential_order_amended (n k c : String) :
    (c ≠ "" → (createBlobServiceClient n k c).1 = .ok .connectionString) ∧
    (c = "" → n ≠ "" → k ≠ "" → (createBlobServiceClient n k c).1 = .ok .accountKey) ∧
    (c = "" → k = "" → n ≠ "" → (createBlobServiceClient n k c).1 = .ok .defaultCredential) ∧
    (c = "" → n = "" →
      (createBlobServiceClient n k c).1 =
        .error (.blobStorageError
          "Failed to initialize blob storage client: No valid authentication method provided for Azure Blob Storage")) ∧
    (createBlobServiceClient n k c).2 = 0 := by
  rcases eq_or_ne c "" with hc | hc <;> rcases eq_or_ne n "" with hn | hn <;>
    rcases eq_or_ne k "" with hk | hk <;>
      simp_all [createBlobServiceClient, createBlobServiceClientInner, PyExc.message]

/-- Witness for C1's amended theorem at a concrete configuration. -/
theorem credential_order_amended_witness :
    (createBlobServiceClient "acct" "key" "").1 = .ok .accountKey ∧
    (createBlobServiceClient "acct" "key" "").2 = 0 :=
  ⟨(credential_order_amended "acct" "key" "").2.1 rfl (by decide) (by decide),
   (credential_order_amended "acct" "key" "").2.2.2.2⟩

/-- C2, counterexample.  The claim says blob reads always use direct
authenticated access and a SAS token is never the service's own fetch
mechanism.  In the code, as soon as an account key and account name are
configured the service takes the SAS-URL path for its own reads: the access
dispatch selects the SAS path, and a failure of local SAS minting makes
get_blob itself fail even though the backend would happily serve the blob —
the delegation token is the service's own access mechanism. -/
theorem sas_primary_access_counterexample :
    (BlobEnv.mk "acct" "key" true (.response 200 "hello")).accessPath = .sasUrl ∧
    getBlob "doc" "docs" (BlobEnv.mk "acct" "key" false (.response 200 "hello")) =
      .error (.blobStorageError
        "Failed to retrieve blob 'doc': Failed to generate SAS token for blob 'doc'") := by
  decide

/-- C2, amended.  A read uses direct authenticated access exactly when no SAS
service exists, i.e. when the account name or the account key is absent; when
both are configured, every read goes through a freshly minted SAS URL, so a
SAS-minting failure fails the read itself. -/
theorem sas_primary_access_amended (n c : String) (env : BlobEnv) :
    (env.accessPath = .directCredential ↔ (env.accountName = "" ∨ env.accountKey = "")) ∧
    (env.sasConfigured = true → env.mintOk = false →
      ∃ m, getBlob n c env = .error (.blobStorageError m)) := by
  constructor
  · simp [BlobEnv.accessPath, BlobEnv.sasConfigured]
    tauto
  · intro h1 h2
    simp [getBlob, getBlobInner, BlobEnv.accessPath, h1, h2, tryExcept, getBlobHandler]

/-- Witness for C2's amended theorem at a concrete environment. -/
theorem sas_primary_access_amended_witness :
    ∃ m, getBlob "doc" "docs" (BlobEnv.mk "a" "k" false (.response 200 "x")) =
      .error (.blobStorageError m) :=
  (sas_primary_access_amended "doc" "docs" (BlobEnv.mk "a" "k" false (.response 200 "x"))).2
    (by decide) rfl

/-- C3: every public operation of the blob service and the session client
surfaces only the repository's domain exception classes — the code's
realization of the six domain error kinds — never a raw httpx or Azure SDK
exception; and an arbitrary unclassified exception is funneled by the final
catch-all into the generic domain error with an unexpected-error message. -/
theorem domain_error_confinement (n c sid pid code : String)
    (benv : BlobEnv) (senv : SessionEnv) :
    (∀ e, getBlob n c benv = .error e → e.isDomain = true) ∧
    (∀ e, getBlobStream n c benv = .error e → e.isDomain = true) ∧
    (∀ e, getBlobMetadata n c benv = .error e → e.isDomain = true) ∧
    (∀ e, blobExists n c benv = .error e → e.isDomain = true) ∧
    (∀ e, (executeCode sid code senv).1 = .error e → e.isDomain = true) ∧
    (∀ e, (createSession pid senv).1 = .error e → e.isDomain = true) ∧
    (∀ e, (getSessionStatus sid senv).1 = .error e → e.isDomain = true) ∧
    (∀ e, (deleteSession sid senv).1 = .error e → e.isDomain = true) ∧
    (∀ m, sessionHandler (.otherError m) =
      .dynamicSessionsError ("Unexpected error: " ++ m)) ∧
    (∀ m, getBlobHandler n c (.otherError m) =
      .error (.blobStorageError ("Unexpected error retrieving blob '" ++ n ++ "': " ++ m))) := by
  refine ⟨?_, ?_, ?_, ?_, ?_, ?_, ?_, ?_, ?_, ?_⟩
  · intro e he
    obtain ⟨e0, h0⟩ := tryExcept_error _ _ _ he
    exact errorsDomain_error _ e (getBlobHandler_domain n c e0) h0
  · intro e he
    obtain ⟨e0, h0⟩ := tryExcept_error _ _ _ he
    exact errorsDomain_error _ e (getBlobStreamHandler_domain n c e0) h0
  · intro e he
    obtain ⟨e0, h0⟩ := tryExcept_error _ _ _ he
    exact errorsDomain_error _ e (getBlobMetadataHandler_domain n c e0) h0
  · intro e he
    obtain ⟨e0, h0⟩ := tryExcept_error _ _ _ he
    exact errorsDomain_error _ e (blobExistsHandler_domain n c e0) h0
  · intro e he
    obtain ⟨e0, h0⟩ := tryExcept_error _ _ _ he
    obtain rfl : sessionHandler e0 = e := by simpa using h0
    exact sessionHandler_domain e0
  · intro e he
    obtain ⟨e0, h0⟩ := tryExcept_error _ _ _ he
    obtain rfl : sessionHandler e0 = e := by simpa using h0
    exact sessionHandler_domain e0
  · intro e he
    obtain ⟨e0, h0⟩ := tryExcept_error _ _ _ he
    obtain rfl : sessionHandler e0 = e := by simpa using h0
    exact sessionHandler_domain e0
  · intro e he
    obtain ⟨e0, h0⟩ := tryExcept_error _ _ _ he
    obtain rfl : sessionHandler e0 = e := by simpa using h0
    exact sessionHandler_domain e0
  · intro m
    simp [sessionHandler, PyExc.message]
  · intro m
    simp [getBlobHandler, PyExc.message]

/-- Witness for C3 at a concrete failing blob read: the surfaced error of a
direct-path 404 is a domain exception. -/
theorem domain_error_confinement_witness :
    (PyExc.blobNotFoundError (blobNotFoundMsg "doc" "docs")).isDomain = true :=
  (domain_error_confinement "doc" "docs" "s1" "p1" "x = 1"
      (BlobEnv.mk "" "" true (.response 404 "")) (SessionEnv.mk true (.response 200 "ok"))).1
    (.blobNotFoundError (blobNotFoundMsg "doc" "docs")) (by decide)

/-- C4, counterexample.  The claim says exists never raises NotFound (true)
and that every non-NotFound domain error kind produced by the remote
interaction still propagates to the caller as an error.  In the SAS path the
code sends a HEAD request without raise_for_status and returns
`status == 200` as the answer: an authorization failure (HTTP 403) — on which
getMetadata for the same locator surfaces an error — is silently converted by
exists into the boolean false. -/
theorem exists_suppression_counterexample :
    blobExists "doc" "docs" (BlobEnv.mk "acct" "key" true (.response 403 "")) = .ok false ∧
    getBlobMetadata "doc" "docs" (BlobEnv.mk "acct" "key" true (.response 403 "")) =
      .error (.blobStorageError "Failed to retrieve metadata for blob 'doc': status 403") := by
  decide

/-- C4, amended.  exists never surfaces NotFound, and any environment in
which getMetadata would fail with NotFound makes exists return false; but in
the SAS path every response, whatever its status (including authorization and
server errors), is converted to the boolean `status == 200` — only SAS-mint,
transport and unexpected failures propagate as errors on that path. -/
theorem exists_semantics_amended (n c : String) (env : BlobEnv) :
    (∀ m, blobExists n c env ≠ .error (.blobNotFoundError m)) ∧
    ((∃ m, getBlobMetadata n c env = .error (.blobNotFoundError m)) →
      blobExists n c env = .ok false) ∧
    (env.sasConfigured = true → env.mintOk = true →
      ∀ s b, env.remote = .response s b → blobExists n c env = .ok (decide (s = 200))) := by
  rcases env with ⟨a, k, mint, r⟩
  rcases hpath : (BlobEnv.mk a k mint r).accessPath with _ | _ <;>
    refine ⟨?_, ?_, ?_⟩ <;>
      [skip; skip; (intro h1 h2 s b hr); skip; skip; (intro h1 h2 s b hr)] <;>
      cases r <;> cases mint <;>
        simp_all [blobExists, blobExistsInner, getBlobMetadata, getBlobMetadataInner,
          tryExcept, blobExistsHandler, getBlobMetadataHandler, BlobEnv.accessPath] <;>
        split_ifs <;> simp_all [blobExistsHandler, getBlobMetadataHandler] <;> omega

/-- Witness for C4's amended theorem: a 200 answer in the SAS path yields
true, applied at a concrete environment. -/
theorem exists_semantics_amended_witness :
    blobExists "doc" "docs" (BlobEnv.mk "a" "k" true (.response 200 "x")) = .ok true := by
  simpa using
    (exists_semantics_amended "doc" "docs" (BlobEnv.mk "a" "k" true (.response 200 "x"))).2.2
      (by decide) rfl 200 "x" rfl

/-- C5: the claim is right that an out-of-range ttl is rejected before any
network call with no token minted, and the code even raises
HTTPException(400, "expires_in_hours must be between 1 and 24") for it — but
the handler's own final `except Exception` catches that very exception and
replaces it with HTTPException(500, "Internal server error"), so the caller
receives an internal-server error, not the InvalidRequest rejection.
In-range values proceed with the requested ttl. -/
theorem sas_ttl_out_of_range_surfaces_500 :
    (getBlobSasToken "doc" none 25 "documents" true).result =
      .error (.httpException 500 "Internal server error") ∧
    (getBlobSasToken "doc" none 25 "documents" true).tokensMinted = 0 ∧
    (getBlobSasToken "doc" none 25 "documents" true).networkCalls = 0 ∧
    (getBlobSasToken "doc" none 0 "documents" true).result =
      .error (.httpException 500 "Internal server error") ∧
    (getBlobSasToken "doc" none 2 "documents" true).result =
      .ok ⟨"doc", "documents", 2⟩ ∧
    (getBlobSasToken "doc" none 2 "documents" true).networkCalls = 0 := by
  decide

/-- C6: the claim (and the service's own docstring and integration tests)
says the execute path surfaces NotFound on a remote 404 and InvalidRequest
with the verbatim remote body on a remote 400.  The code does raise
SessionNotFoundError and CodeExecutionError on those statuses, but both
raises happen inside the `try`, and the final `except Exception` of the same
method catches them and re-raises a plain DynamicSessionsError with an
unexpected-error message — so the typed errors never leave execute_code, and
the routing layer consequently answers 500 instead of 404/400. -/
theorem execute_code_typed_errors_rewrapped :
    (executeCode "s1" "x = 1" (SessionEnv.mk true (.response 404 "nf"))).1 =
      .error (.dynamicSessionsError "Unexpected error: Session s1 not found") ∧
    (executeCode "s1" "x = (" (SessionEnv.mk true (.response 400 "Syntax error in code"))).1 =
      .error (.dynamicSessionsError
        "Unexpected error: Code execution failed: Syntax error in code") ∧
    (executeSimpleEndpoint "s1" "x = 1" (SessionEnv.mk true (.response 404 "nf"))).1 =
      .error (.httpException 500 "Internal server error") := by
  decide

/-- C7, counterexample.  The claim says every entry point rejects code of
length 0 or above 50,000 before any network call.  The simplified execute
endpoint has no length constraint on its body parameter and the service
performs no validation either: the empty code payload sails through, a
credential is resolved, the HTTP call is issued, and the call succeeds. -/
theorem execute_simple_no_validation_counterexample :
    ("" : String).length = 0 ∧
    (executeSimpleEndpoint "s1" "" (SessionEnv.mk true (.response 200 "ok"))).2 =
      OpTrace.mk 1 1 ∧
    (executeSimpleEndpoint "s1" "" (SessionEnv.mk true (.response 200 "ok"))).1 = .ok "ok" := by
  decide

/-- C7, amended.  Only the typed execute entry point enforces the 1 to 50000
length bound, through its pydantic request model, rejecting invalid payloads
before any credential resolution or network call; the simplified entry point
forwards any code unvalidated to the service, which always resolves a
credential and, if that succeeds, always issues the HTTP call. -/
theorem execute_length_validation_amended (sid code : String) (env : SessionEnv) :
    (codeLengthValid code = false →
      executeEndpoint sid code env =
        (.error (.httpException 422 "request validation failed"), OpTrace.mk 0 0)) ∧
    ((executeSimpleEndpoint sid code env).2 = sessionTrace env) ∧
    ((executeSimpleEndpoint sid code env).2.credentialResolutions = 1) ∧
    (env.tokenOk = true → (executeSimpleEndpoint sid code env).2.httpCalls = 1) := by
  have hbase : (executeSimpleEndpoint sid code env).2 = sessionTrace env := by
    unfold executeSimpleEndpoint executeCode
    cases htry : tryExcept (executeCodeInner sid code env)
        (fun e => PyResult.error (sessionHandler e)) <;>
      simp [htry]
  refine ⟨?_, hbase, ?_, ?_⟩
  · intro h
    simp [executeEndpoint, h]
  · rw [hbase]
    rfl
  · intro h
    rw [hbase]
    simp [sessionTrace, h]

/-- Witness for C7's amended theorem at the empty code payload. -/
theorem execute_length_validation_amended_witness :
    executeEndpoint "s1" "" (SessionEnv.mk true (.response 200 "ok")) =
      (.error (.httpException 422 "request validation failed"), OpTrace.mk 0 0) :=
  (execute_length_validation_amended "s1" "" (SessionEnv.mk true (.response 200 "ok"))).1
    (by decide)

/-- C8: the claim (which the spec itself flags as the intended contract, with
the hardcoded value a defect) says the creation request is addressed to the
caller-supplied pool identifier.  The code sends the literal identifier
"testid1" whatever pool the caller named.  The other half of the claim holds:
a non-2xx answer goes through raise_for_status and surfaces uniformly as the
generic domain error, with no special case for 404. -/
theorem create_session_pool_identifier_hardcoded :
    (createSessionParams "pool-a").2 = "testid1" ∧
    "pool-a" ≠ "testid1" ∧
    (createSession "pool-a" (SessionEnv.mk true (.response 404 "x"))).1 =
      .error (.dynamicSessionsError "HTTP error: status 404") ∧
    (createSession "pool-a" (SessionEnv.mk true (.response 503 "x"))).1 =
      .error (.dynamicSessionsError "HTTP error: status 503") := by
  decide

/-- C9, counterexample.  The claim says getStream returns a lazy, single-pass,
non-restartable byte stream.  The code wraps the fully downloaded content in
an in-memory BytesIO buffer: the whole object is materialized at return, and
a stream consumed to its end can be rewound with seek 0 and read again,
yielding the full content a second time. -/
theorem stream_restartable_counterexample :
    getBlobStream "doc" "docs" (BlobEnv.mk "acct" "key" true (.response 200 "hello")) =
      .ok (byteStreamOf "hello") ∧
    ((byteStreamOf "hello").readAll).1 = "hello" ∧
    ((((byteStreamOf "hello").readAll).2.seek 0).readAll).1 = "hello" := by
  decide

/-- C9, amended.  A successful getStream returns a finite, fully buffered
in-memory stream holding the entire object content at the moment of return;
it is seekable and restartable: consuming it, seeking back to zero and
reading again yields the same full content. -/
theorem stream_buffered_amended (n c body : String) (env : BlobEnv)
    (h1 : env.sasConfigured = true) (h2 : env.mintOk = true)
    (h3 : env.remote = .response 200 body) :
    getBlobStream n c env = .ok (byteStreamOf body) ∧
    (byteStreamOf body).buf = body ∧
    ((byteStreamOf body).readAll).1 = body ∧
    ((((byteStreamOf body).readAll).2.seek 0).readAll).1 = body := by
  refine ⟨?_, rfl, rfl, rfl⟩
  simp [getBlobStream, getBlobStreamInner, BlobEnv.accessPath, h1, h2, h3, tryExcept]

/-- Witness for C9's amended theorem at a concrete blob. -/
theorem stream_buffered_amended_witness :
    getBlobStream "doc" "docs" (BlobEnv.mk "a" "k" true (.response 200 "hi")) =
      .ok (byteStreamOf "hi") :=
  (stream_buffered_amended "doc" "docs" "hi" (BlobEnv.mk "a" "k" true (.response 200 "hi"))
    (by decide) rfl rfl).1

/-- C10: the Settings class declares no azure_client_id field, yet both
dependency providers read settings.azure_client_id, and
get_blob_storage_service additionally passes a client_id keyword that
AzureBlobStorageService.__init__ does not accept; attribute evaluation
happens first, so both providers raise AttributeError before any service
exists, and every endpoint depending on either provider fails at service
construction, for all inputs, before any storage or control-plane call. -/
theorem endpoints_fail_at_service_construction :
    settingsFields.contains "azure_client_id" = false ∧
    blobServiceInitParams.contains "client_id" = false ∧
    blobProviderKwargs.contains "client_id" = true ∧
    getBlobStorageServiceProvider = .error (.attributeError "azure_client_id") ∧
    getDynamicSessionsServiceProvider = .error (.attributeError "azure_client_id") ∧
    ((blobServiceEndpoints ++ sessionServiceEndpoints).all
      (fun ep => decide (endpointProvider ep = .error (.attributeError "azure_client_id")))) = true := by
  decide

end PooledApp





